import Mathlib

/-!
Verification development for the charybdis object-mapping / query-construction
layer: a shallow embedding of the collection-mutation code generator
(charybdis-macros/src/native/collection.rs), the query-execution core
(charybdis/src/query.rs), the typed finder operations
(charybdis/src/operations/find.rs), and the live schema introspector
(charybdis-parser/src/schema/db_schema.rs), together with theorems checking
the specification document against this embedding.
-/

namespace Charybdis

/-! ## External driver contract

The scylla driver is an external dependency; only the shape of its values that
this system stores and forwards matters here. -/

/-- Modelled from the spec: the opaque driver-side types the query builder
stores and forwards (consistency levels, durations, retry policies, history
listeners, execution-profile handles, paging state with its start-of-result
value, transport errors). The builder never inspects these values. -/
structure Drv where
  Consistency : Type
  SerialConsistency : Type
  Duration : Type
  RetryPolicy : Type
  HistoryListener : Type
  ProfileHandle : Type
  PagingState : Type
  paging_start : PagingState
  QueryErr : Type

/-- Modelled from the spec: the driver statement value created by Query::new
together with its per-statement configuration options. A fresh statement has
every option unset and both flags off (spec 4.3 defaults); each set operation
stores the given value and touches nothing else. -/
structure QueryInner (D : Drv) where
  contents : String
  page_size : Option Int
  consistency : Option D.Consistency
  serial_consistency : Option D.SerialConsistency
  is_idempotent : Bool
  tracing : Bool
  timestamp : Option Int
  request_timeout : Option D.Duration
  retry_policy : Option D.RetryPolicy
  history_listener : Option D.HistoryListener
  profile_handle : Option D.ProfileHandle

/-- Query::new: fresh statement with all options unset / flags off. -/
def QueryInner.new (D : Drv) (contents : String) : QueryInner D :=
  { contents := contents
    page_size := none
    consistency := none
    serial_consistency := none
    is_idempotent := false
    tracing := false
    timestamp := none
    request_timeout := none
    retry_policy := none
    history_listener := none
    profile_handle := none }

def QueryInner.set_page_size {D : Drv} (q : QueryInner D) (n : Int) : QueryInner D :=
  { q with page_size := some n }

def QueryInner.set_consistency {D : Drv} (q : QueryInner D) (c : D.Consistency) : QueryInner D :=
  { q with consistency := some c }

def QueryInner.set_serial_consistency {D : Drv} (q : QueryInner D)
    (c : Option D.SerialConsistency) : QueryInner D :=
  { q with serial_consistency := c }

def QueryInner.set_is_idempotent {D : Drv} (q : QueryInner D) (b : Bool) : QueryInner D :=
  { q with is_idempotent := b }

def QueryInner.set_tracing {D : Drv} (q : QueryInner D) (b : Bool) : QueryInner D :=
  { q with tracing := b }

def QueryInner.set_timestamp {D : Drv} (q : QueryInner D) (t : Option Int) : QueryInner D :=
  { q with timestamp := t }

def QueryInner.set_request_timeout {D : Drv} (q : QueryInner D)
    (t : Option D.Duration) : QueryInner D :=
  { q with request_timeout := t }

def QueryInner.set_retry_policy {D : Drv} (q : QueryInner D)
    (r : Option D.RetryPolicy) : QueryInner D :=
  { q with retry_policy := r }

def QueryInner.set_history_listener {D : Drv} (q : QueryInner D)
    (h : D.HistoryListener) : QueryInner D :=
  { q with history_listener := some h }

def QueryInner.remove_history_listener {D : Drv} (q : QueryInner D) : QueryInner D :=
  { q with history_listener := none }

def QueryInner.set_execution_profile_handle {D : Drv} (q : QueryInner D)
    (p : Option D.ProfileHandle) : QueryInner D :=
  { q with profile_handle := p }

/-! ## Base model capability -/

/-- The BaseModel capability (spec section 3): a model type with its
primary-key and partition-key value types, the key accessors, and the three
generated find-query string constants. -/
structure ModelSig where
  M : Type
  PrimaryKey : Type
  PartitionKey : Type
  primary_key_values : M → PrimaryKey
  partition_key_values : M → PartitionKey
  FIND_BY_PRIMARY_KEY_QUERY : String
  FIND_BY_PARTITION_KEY_QUERY : String
  FIND_FIRST_BY_PARTITION_KEY_QUERY : String

/-! ## QueryValue (charybdis/src/query.rs lines 171-204) -/

/-- The six shapes of a query's bound parameters. In the source, Ref and Model
hold borrowed references; the embedding holds the referred-to values. Empty is
the Default variant. -/
inductive QueryValue (Val : Type) (S : ModelSig) where
  | Owned (v : Val)
  | Ref (v : Val)
  | PrimaryKey (v : S.PrimaryKey)
  | PartitionKey (v : S.PartitionKey)
  | Model (m : S.M)
  | Empty

/-- The SerializeRow contract of the driver for one bindable type: serializing
appends a list of wire cells (or fails), and emptiness reports whether the
value binds zero columns. -/
structure SerializeRowImpl (Cell SerErr : Type) (α : Type) where
  ser : α → Except SerErr (List Cell)
  is_empty : α → Bool

/-- SerializeRow::serialize for QueryValue: every non-Empty shape delegates to
the underlying value; Empty writes nothing and succeeds. -/
def QueryValue.serialize {Cell SerErr Val : Type} {S : ModelSig}
    (sv : SerializeRowImpl Cell SerErr Val)
    (spk : SerializeRowImpl Cell SerErr S.PrimaryKey)
    (spart : SerializeRowImpl Cell SerErr S.PartitionKey)
    (sm : SerializeRowImpl Cell SerErr S.M) :
    QueryValue Val S → Except SerErr (List Cell)
  | .Owned v => sv.ser v
  | .Ref v => sv.ser v
  | .PrimaryKey v => spk.ser v
  | .PartitionKey v => spart.ser v
  | .Model m => sm.ser m
  | .Empty => .ok []

/-- SerializeRow::is_empty for QueryValue: every non-Empty shape delegates to
the underlying value; Empty always reports empty. -/
def QueryValue.is_empty {Cell SerErr Val : Type} {S : ModelSig}
    (sv : SerializeRowImpl Cell SerErr Val)
    (spk : SerializeRowImpl Cell SerErr S.PrimaryKey)
    (spart : SerializeRowImpl Cell SerErr S.PartitionKey)
    (sm : SerializeRowImpl Cell SerErr S.M) :
    QueryValue Val S → Bool
  | .Owned v => sv.is_empty v
  | .Ref v => sv.is_empty v
  | .PrimaryKey v => spk.is_empty v
  | .PartitionKey v => spart.is_empty v
  | .Model m => sm.is_empty m
  | .Empty => true

/-! ## Executor strategy tags and the query builder -/

/-- The five zero-data executor strategy marker types, as a closed enumeration
used as the builder's phantom parameter. -/
inductive ExecutorTag where
  | modelRow
  | optionalModelRow
  | modelStream
  | modelPaged
  | modelMutation
deriving DecidableEq

/-- CharybdisQuery (charybdis/src/query.rs lines 206-212): the driver
statement, the paging cursor, the original query-string constant, the bound
QueryValue, and the phantom executor tag Qe. -/
structure CharybdisQuery (D : Drv) (Val : Type) (S : ModelSig) (Qe : ExecutorTag) where
  inner : QueryInner D
  paging_state : D.PagingState
  query_string : String
  values : QueryValue Val S

/-- CharybdisQuery::new: wraps a fresh driver statement over the query string,
retains the string, stores the values, and starts the paging cursor at
start-of-result. -/
def CharybdisQuery.new {D : Drv} {Val : Type} {S : ModelSig} {Qe : ExecutorTag}
    (query : String) (values : QueryValue Val S) : CharybdisQuery D Val S Qe :=
  { inner := QueryInner.new D query
    paging_state := D.paging_start
    query_string := query
    values := values }

/-- pub(crate) fn values (renamed: the structure field of the same name is the
projection). -/
def CharybdisQuery.with_values {D : Drv} {Val : Type} {S : ModelSig} {Qe : ExecutorTag}
    (q : CharybdisQuery D Val S Qe) (values : QueryValue Val S) : CharybdisQuery D Val S Qe :=
  { q with values := values }

def CharybdisQuery.page_size {D : Drv} {Val : Type} {S : ModelSig} {Qe : ExecutorTag}
    (q : CharybdisQuery D Val S Qe) (n : Int) : CharybdisQuery D Val S Qe :=
  { q with inner := q.inner.set_page_size n }

def CharybdisQuery.consistency {D : Drv} {Val : Type} {S : ModelSig} {Qe : ExecutorTag}
    (q : CharybdisQuery D Val S Qe) (c : D.Consistency) : CharybdisQuery D Val S Qe :=
  { q with inner := q.inner.set_consistency c }

def CharybdisQuery.serial_consistency {D : Drv} {Val : Type} {S : ModelSig} {Qe : ExecutorTag}
    (q : CharybdisQuery D Val S Qe) (c : Option D.SerialConsistency) : CharybdisQuery D Val S Qe :=
  { q with inner := q.inner.set_serial_consistency c }

/-- fn paging_state (renamed: the structure field of the same name is the
projection). -/
def CharybdisQuery.set_paging_state {D : Drv} {Val : Type} {S : ModelSig} {Qe : ExecutorTag}
    (q : CharybdisQuery D Val S Qe) (p : D.PagingState) : CharybdisQuery D Val S Qe :=
  { q with paging_state := p }

def CharybdisQuery.idempotent {D : Drv} {Val : Type} {S : ModelSig} {Qe : ExecutorTag}
    (q : CharybdisQuery D Val S Qe) (b : Bool) : CharybdisQuery D Val S Qe :=
  { q with inner := q.inner.set_is_idempotent b }

def CharybdisQuery.trace {D : Drv} {Val : Type} {S : ModelSig} {Qe : ExecutorTag}
    (q : CharybdisQuery D Val S Qe) (b : Bool) : CharybdisQuery D Val S Qe :=
  { q with inner := q.inner.set_tracing b }

def CharybdisQuery.timestamp {D : Drv} {Val : Type} {S : ModelSig} {Qe : ExecutorTag}
    (q : CharybdisQuery D Val S Qe) (t : Option Int) : CharybdisQuery D Val S Qe :=
  { q with inner := q.inner.set_timestamp t }

def CharybdisQuery.timeout {D : Drv} {Val : Type} {S : ModelSig} {Qe : ExecutorTag}
    (q : CharybdisQuery D Val S Qe) (t : Option D.Duration) : CharybdisQuery D Val S Qe :=
  { q with inner := q.inner.set_request_timeout t }

def CharybdisQuery.retry_policy {D : Drv} {Val : Type} {S : ModelSig} {Qe : ExecutorTag}
    (q : CharybdisQuery D Val S Qe) (r : Option D.RetryPolicy) : CharybdisQuery D Val S Qe :=
  { q with inner := q.inner.set_retry_policy r }

def CharybdisQuery.history_listener {D : Drv} {Val : Type} {S : ModelSig} {Qe : ExecutorTag}
    (q : CharybdisQuery D Val S Qe) (h : D.HistoryListener) : CharybdisQuery D Val S Qe :=
  { q with inner := q.inner.set_history_listener h }

def CharybdisQuery.remove_history_listener {D : Drv} {Val : Type} {S : ModelSig} {Qe : ExecutorTag}
    (q : CharybdisQuery D Val S Qe) : CharybdisQuery D Val S Qe :=
  { q with inner := q.inner.remove_history_listener }

def CharybdisQuery.profile_handle {D : Drv} {Val : Type} {S : ModelSig} {Qe : ExecutorTag}
    (q : CharybdisQuery D Val S Qe) (p : Option D.ProfileHandle) : CharybdisQuery D Val S Qe :=
  { q with inner := q.inner.set_execution_profile_handle p }

/-! ## Result decoding and executor strategies (charybdis/src/query.rs lines 47-169)

Execution is a single round trip to the session layer; the embedding passes
the session's reply in explicitly, so each executor is the pure function from
the builder and the reply to the typed result. -/

/-- The driver's QueryResult as far as row decoding is concerned: rows is none
for a response that carries no row set (for example a write acknowledgment),
and some rs for a row set with rows rs. -/
structure QueryResultRows (Row : Type) where
  rows : Option (List Row)

/-- The driver's FirstRowTypedError: the response carried no row set, the row
set was empty, or the first row failed to decode. -/
inductive FirstRowTypedErr (FromRowErr : Type) where
  | rowsExpected
  | rowsEmpty
  | fromRowErr (e : FromRowErr)

/-- The driver's MaybeFirstRowTypedError: the response carried no row set, or
the first row failed to decode (an empty row set is not an error here). -/
inductive MaybeFirstRowTypedErr (FromRowErr : Type) where
  | rowsExpected
  | fromRowErr (e : FromRowErr)

/-- QueryResult::first_row_typed of the driver. -/
def first_row_typed {Row FromRowErr B : Type} (decode : Row → Except FromRowErr B)
    (res : QueryResultRows Row) : Except (FirstRowTypedErr FromRowErr) B :=
  match res.rows with
  | none => .error .rowsExpected
  | some [] => .error .rowsEmpty
  | some (r :: _) =>
    match decode r with
    | .error e => .error (.fromRowErr e)
    | .ok b => .ok b

/-- QueryResult::maybe_first_row_typed of the driver: zero rows is a valid
absent value. -/
def maybe_first_row_typed {Row FromRowErr B : Type} (decode : Row → Except FromRowErr B)
    (res : QueryResultRows Row) : Except (MaybeFirstRowTypedErr FromRowErr) (Option B) :=
  match res.rows with
  | none => .error .rowsExpected
  | some [] => .ok none
  | some (r :: _) =>
    match decode r with
    | .error e => .error (.fromRowErr e)
    | .ok b => .ok (some b)

/-- CharybdisError, restricted to the kinds the embedded executors produce;
every kind carries the original query-string constant. -/
inductive CharybdisError (D : Drv) (FromRowErr : Type) where
  | QueryError (query : String) (e : D.QueryErr)
  | NotFoundError (query : String)
  | FirstRowTypedError (query : String) (e : FirstRowTypedErr FromRowErr)
  | MaybeFirstRowTypedError (query : String) (e : MaybeFirstRowTypedErr FromRowErr)
  | RowsExpectedError (query : String)

/-- QueryExecutor for ModelRow: transport failure becomes QueryError; an empty
row set becomes NotFoundError; any other first_row_typed failure becomes
FirstRowTypedError. -/
def modelRowExecute {D : Drv} {Val Row FromRowErr : Type} {S : ModelSig}
    (q : CharybdisQuery D Val S .modelRow)
    (decode : Row → Except FromRowErr S.M)
    (reply : Except D.QueryErr (QueryResultRows Row)) :
    Except (CharybdisError D FromRowErr) S.M :=
  match reply with
  | .error e => .error (.QueryError q.query_string e)
  | .ok res =>
    match first_row_typed decode res with
    | .error .rowsEmpty => .error (.NotFoundError q.query_string)
    | .error e => .error (.FirstRowTypedError q.query_string e)
    | .ok m => .ok m

/-- QueryExecutor for OptionalModelRow: transport failure becomes QueryError;
maybe_first_row_typed failure becomes MaybeFirstRowTypedError; zero rows is a
valid none. -/
def optionalModelRowExecute {D : Drv} {Val Row FromRowErr : Type} {S : ModelSig}
    (q : CharybdisQuery D Val S .optionalModelRow)
    (decode : Row → Except FromRowErr S.M)
    (reply : Except D.QueryErr (QueryResultRows Row)) :
    Except (CharybdisError D FromRowErr) (Option S.M) :=
  match reply with
  | .error e => .error (.QueryError q.query_string e)
  | .ok res =>
    match maybe_first_row_typed decode res with
    | .error e => .error (.MaybeFirstRowTypedError q.query_string e)
    | .ok m => .ok m

/-- QueryExecutor for ModelMutation: transport failure becomes QueryError; the
raw acknowledgment is returned with no row decoding. -/
def modelMutationExecute {D : Drv} {Val Row : Type} (FromRowErr : Type) {S : ModelSig}
    (q : CharybdisQuery D Val S .modelMutation)
    (reply : Except D.QueryErr (QueryResultRows Row)) :
    Except (CharybdisError D FromRowErr) (QueryResultRows Row) :=
  match reply with
  | .error e => .error (.QueryError q.query_string e)
  | .ok res => .ok res

/-! ## Callback-wrapped mutation (charybdis/src/query.rs lines 307-349) -/

/-- The CallbackAction capability: the before-execute hook (which may mutate
the model, hence returns the updated model), the QueryValue derivation from
the current model state, and the after-execute hook. Each hook may fail with
the model's own error type Err. -/
structure CallbackActionImpl (S : ModelSig) (Val Ext Err : Type) where
  before_execute : S.M → Ext → Except Err S.M
  query_value : S.M → QueryValue Val S
  after_execute : S.M → Ext → Except Err S.M

/-- CharybdisCbQuery: an inner ModelMutation-strategy builder, the model being
mutated, and the extension context. -/
structure CharybdisCbQuery (D : Drv) (Val : Type) (S : ModelSig) (Ext : Type) where
  inner : CharybdisQuery D Val S .modelMutation
  model : S.M
  extension : Ext

/-- CharybdisCbQuery::new: inner builder over the query string with the
default (Empty) QueryValue. -/
def CharybdisCbQuery.new {D : Drv} {Val : Type} {S : ModelSig} {Ext : Type}
    (query : String) (model : S.M) (extension : Ext) : CharybdisCbQuery D Val S Ext :=
  { inner := CharybdisQuery.new query QueryValue.Empty
    model := model
    extension := extension }

/-- CharybdisCbQuery::execute. The session is the function from an issued
(query string, bound values) pair to the transport reply; from_ch is the From
conversion of a CharybdisError into the model's own error type used by the
question-mark operator on the inner execute. The second component of the
result lists, in order, the executions issued to the session (the source has
exactly one execute_unpaged call site, inside the inner builder's execute). -/
def CharybdisCbQuery.execute {D : Drv} {Val Ext Err Row : Type} (FromRowErr : Type) {S : ModelSig}
    (cba : CallbackActionImpl S Val Ext Err)
    (from_ch : CharybdisError D FromRowErr → Err)
    (q : CharybdisCbQuery D Val S Ext)
    (session : String → QueryValue Val S → Except D.QueryErr (QueryResultRows Row)) :
    Except Err (QueryResultRows Row) × List (String × QueryValue Val S) :=
  match cba.before_execute q.model q.extension with
  | .error e => (.error e, [])
  | .ok m2 =>
    let qv := cba.query_value m2
    let bound := q.inner.with_values qv
    let issued := [(bound.query_string, qv)]
    match modelMutationExecute FromRowErr bound (session bound.query_string qv) with
    | .error ce => (.error (from_ch ce), issued)
    | .ok res =>
      match cba.after_execute m2 q.extension with
      | .error e => (.error e, issued)
      | .ok _ => (.ok res, issued)

/-! ## Typed finder operations (charybdis/src/operations/find.rs) -/

namespace Find

def find (D : Drv) (S : ModelSig) {Val : Type} (query : String) (values : Val) :
    CharybdisQuery D Val S .modelStream :=
  CharybdisQuery.new query (.Owned values)

def find_paged (D : Drv) (S : ModelSig) {Val : Type} (query : String) (values : Val)
    (paging_state : D.PagingState) : CharybdisQuery D Val S .modelPaged :=
  (CharybdisQuery.new query (.Owned values)).set_paging_state paging_state

def find_first (D : Drv) (S : ModelSig) {Val : Type} (query : String) (values : Val) :
    CharybdisQuery D Val S .modelRow :=
  CharybdisQuery.new query (.Owned values)

def maybe_find_first (D : Drv) (S : ModelSig) {Val : Type} (query : String) (values : Val) :
    CharybdisQuery D Val S .optionalModelRow :=
  CharybdisQuery.new query (.Owned values)

def find_by_primary_key_value (D : Drv) (S : ModelSig) (value : S.PrimaryKey) :
    CharybdisQuery D S.PrimaryKey S .modelRow :=
  CharybdisQuery.new S.FIND_BY_PRIMARY_KEY_QUERY (.Owned value)

def maybe_find_by_primary_key_value (D : Drv) (S : ModelSig) (value : S.PrimaryKey) :
    CharybdisQuery D S.PrimaryKey S .optionalModelRow :=
  CharybdisQuery.new S.FIND_BY_PRIMARY_KEY_QUERY (.Owned value)

def find_by_partition_key_value (D : Drv) (S : ModelSig) (value : S.PartitionKey) :
    CharybdisQuery D S.PartitionKey S .modelStream :=
  CharybdisQuery.new S.FIND_BY_PARTITION_KEY_QUERY (.Owned value)

def find_first_by_partition_key_value (D : Drv) (S : ModelSig) (value : S.PartitionKey) :
    CharybdisQuery D S.PartitionKey S .modelRow :=
  CharybdisQuery.new S.FIND_FIRST_BY_PARTITION_KEY_QUERY (.Owned value)

def find_by_partition_key_value_paged (D : Drv) (S : ModelSig) (value : S.PartitionKey) :
    CharybdisQuery D S.PartitionKey S .modelPaged :=
  CharybdisQuery.new S.FIND_BY_PARTITION_KEY_QUERY (.Owned value)

def find_by_primary_key (D : Drv) (S : ModelSig) (self : S.M) :
    CharybdisQuery D S.PrimaryKey S .modelRow :=
  CharybdisQuery.new S.FIND_BY_PRIMARY_KEY_QUERY (.Owned (S.primary_key_values self))

def maybe_find_by_primary_key (D : Drv) (S : ModelSig) (self : S.M) :
    CharybdisQuery D S.PrimaryKey S .optionalModelRow :=
  CharybdisQuery.new S.FIND_BY_PRIMARY_KEY_QUERY (.Owned (S.primary_key_values self))

def find_by_partition_key (D : Drv) (S : ModelSig) (self : S.M) :
    CharybdisQuery D S.PartitionKey S .modelStream :=
  CharybdisQuery.new S.FIND_BY_PARTITION_KEY_QUERY (.Owned (S.partition_key_values self))

end Find

/-! ## Collection-mutation code generator
(charybdis-macros/src/native/collection.rs)

The generator walks the model's declared field list; the field-description
layer contributes each field's name and collection-ness and the primary-key
field set's rendered WHERE placeholder clause. The constant generators emit
(constant name, constant value) pairs; the method generators emit
(method name, referenced constant name) pairs together with the runtime
semantics of one generated method body, given below. -/

/-- One declared column as the field-description layer presents it to the
generator: its name and whether it is collection-typed. -/
structure CharybdisField where
  name : String
  is_collection : Bool
deriving DecidableEq

/-- The macro arguments: the table name interpolated into generated CQL. -/
structure CharybdisMacroArgsModel where
  table_name : String

/-- The field set handed to the generator: the declared db fields in order,
and the primary-key field set rendered as its WHERE placeholder clause. -/
structure CharybdisFieldsModel where
  db_fields : List CharybdisField
  where_placeholders : String

/-- push_to_collection_consts: per collection field, the PUSH constant. -/
def push_to_collection_consts (args : CharybdisMacroArgsModel)
    (fields : CharybdisFieldsModel) : List (String × String) :=
  fields.db_fields.filterMap fun field =>
    if !field.is_collection then none
    else
      some ("PUSH_" ++ field.name.toUpper ++ "_QUERY",
        "UPDATE " ++ args.table_name ++ " SET " ++ field.name ++ " = " ++ field.name
          ++ " + ? WHERE " ++ fields.where_placeholders)

/-- push_to_collection_consts_if_exists: per collection field, the PUSH
IF EXISTS constant. -/
def push_to_collection_consts_if_exists (args : CharybdisMacroArgsModel)
    (fields : CharybdisFieldsModel) : List (String × String) :=
  fields.db_fields.filterMap fun field =>
    if !field.is_collection then none
    else
      some ("PUSH_" ++ field.name.toUpper ++ "_IF_EXISTS_QUERY",
        "UPDATE " ++ args.table_name ++ " SET " ++ field.name ++ " = " ++ field.name
          ++ " + ? WHERE " ++ fields.where_placeholders ++ " IF EXISTS")

/-- pull_from_collection_consts: per collection field, the PULL constant. -/
def pull_from_collection_consts (args : CharybdisMacroArgsModel)
    (fields : CharybdisFieldsModel) : List (String × String) :=
  fields.db_fields.filterMap fun field =>
    if !field.is_collection then none
    else
      some ("PULL_" ++ field.name.toUpper ++ "_QUERY",
        "UPDATE " ++ args.table_name ++ " SET " ++ field.name ++ " = " ++ field.name
          ++ " - ? WHERE " ++ fields.where_placeholders)

/-- pull_from_collection_consts_if_exists: per collection field, the PULL
IF EXISTS constant. -/
def pull_from_collection_consts_if_exists (args : CharybdisMacroArgsModel)
    (fields : CharybdisFieldsModel) : List (String × String) :=
  fields.db_fields.filterMap fun field =>
    if !field.is_collection then none
    else
      some ("PULL_" ++ field.name.toUpper ++ "_IF_EXISTS_QUERY",
        "UPDATE " ++ args.table_name ++ " SET " ++ field.name ++ " = " ++ field.name
          ++ " - ? WHERE " ++ fields.where_placeholders ++ " IF EXISTS")

/-- push_to_collection_methods: per collection field, the generated method
name and the constant it references as Self::PUSH_F_QUERY. -/
def push_to_collection_methods (fields : CharybdisFieldsModel) : List (String × String) :=
  fields.db_fields.filterMap fun field =>
    if !field.is_collection then none
    else some ("push_" ++ field.name, "PUSH_" ++ field.name.toUpper ++ "_QUERY")

/-- push_to_collection_methods_if_exists: per collection field, the generated
method name and the constant it references. -/
def push_to_collection_methods_if_exists (fields : CharybdisFieldsModel) :
    List (String × String) :=
  fields.db_fields.filterMap fun field =>
    if !field.is_collection then none
    else some ("push_" ++ field.name ++ "_if_exists",
      "PUSH_" ++ field.name.toUpper ++ "_IF_EXISTS_QUERY")

/-- pull_from_collection_methods: per collection field, the generated method
name and the constant it references. -/
def pull_from_collection_methods (fields : CharybdisFieldsModel) : List (String × String) :=
  fields.db_fields.filterMap fun field =>
    if !field.is_collection then none
    else some ("pull_" ++ field.name, "PULL_" ++ field.name.toUpper ++ "_QUERY")

/-- pull_from_collection_methods_if_exists: per collection field, the
generated method name and the constant it references. -/
def pull_from_collection_methods_if_exists (fields : CharybdisFieldsModel) :
    List (String × String) :=
  fields.db_fields.filterMap fun field =>
    if !field.is_collection then none
    else some ("pull_" ++ field.name ++ "_if_exists",
      "PULL_" ++ field.name.toUpper ++ "_IF_EXISTS_QUERY")

/-- Runtime semantics of one generated collection-mutation builder method
body: CharybdisQuery::new(Self::CONST, QueryValue::Owned((value,
primary-key values of the receiver))), typed to the ModelMutation strategy.
const_val is the query string the referenced constant resolves to; the
receiver self is read only through its primary-key value accessors (the
generated value expressions are exactly the primary-key field accesses). -/
def generated_collection_method {D : Drv} {V : Type} (S : ModelSig)
    (const_val : String) (self : S.M) (value : V) :
    CharybdisQuery D (V × S.PrimaryKey) S .modelMutation :=
  CharybdisQuery.new const_val (QueryValue.Owned (value, S.primary_key_values self))

/-! ## Live schema introspector
(charybdis-parser/src/schema/db_schema.rs) -/

/-- Modelled from the spec: the schema-object data model (spec section 3);
its definition (crate::schema::SchemaObject with SchemaObject::new and
push_field) is not among the supplied sources. Ordered field entries of
(column name, column type, is-static flag), ordered partition-key and
clustering-key column-name lists, and (index name, index target) lists split
by global/local scope. -/
structure SchemaObject where
  fields : List (String × String × Bool)
  partition_keys : List String
  clustering_keys : List String
  global_secondary_indexes : List (String × String)
  local_secondary_indexes : List (String × String)
deriving DecidableEq

/-- Modelled from the spec: SchemaObject::new, the empty schema object. -/
def SchemaObject.new : SchemaObject :=
  { fields := []
    partition_keys := []
    clustering_keys := []
    global_secondary_indexes := []
    local_secondary_indexes := [] }

/-- Modelled from the spec: SchemaObject::push_field appends one
(name, type, is-static) field entry. -/
def SchemaObject.push_field (o : SchemaObject) (name ty : String) (is_static : Bool) :
    SchemaObject :=
  { o with fields := o.fields ++ [(name, ty, is_static)] }

/-- DbSchema: the three name-keyed object maps (HashMap in the source,
embedded as association lists) plus the keyspace name. -/
structure DbSchema where
  tables : List (String × SchemaObject)
  udts : List (String × SchemaObject)
  materialized_views : List (String × SchemaObject)
  keyspace_name : String
deriving DecidableEq

/-- One line printed by a failing phase of DbSchema::new: the message text and
whether it was rendered highlighted (the source prints it bright red and
bold). -/
structure LogEntry where
  message : String
  highlighted : Bool
deriving DecidableEq

/-- DbSchema::new: starts from the empty snapshot for the keyspace and runs
the three catalog phases strictly in sequence, each phase transforming the
snapshot or failing with a catalog error E (rendered by fmt). A failing phase
logs its highlighted message and then unwraps the error: the construction
panics, modelled as a none schema — no partial snapshot reaches the caller.
The phases themselves perform the catalog queries and are passed in as the
session-dependent part of the construction. -/
def DbSchema.new {E : Type} (keyspace_name : String)
    (tables_phase udts_phase mvs_phase : DbSchema → Except E DbSchema)
    (fmt : E → String) : List LogEntry × Option DbSchema :=
  let init : DbSchema :=
    { tables := [], udts := [], materialized_views := [], keyspace_name := keyspace_name }
  match tables_phase init with
  | .error e =>
    ([{ message := "Error getting tables from system_schema: " ++ fmt e, highlighted := true }],
      none)
  | .ok s1 =>
    match udts_phase s1 with
    | .error e =>
      ([{ message := "Error getting udts from system_schema: " ++ fmt e, highlighted := true }],
        none)
    | .ok s2 =>
      match mvs_phase s2 with
      | .error e =>
        ([{ message := "Error getting materialized views from system_schema: " ++ fmt e,
            highlighted := true }], none)
      | .ok s3 => ([], some s3)

/-- The zip loop of get_udts_from_system_schema (db_schema.rs lines 253-255):
for (index, field_name) in field_names.enumerate, push
(field_name, field_types[index], false). The positional index into
field_types panics when out of bounds; the panic is modelled as none. -/
def udt_zip_loop (types : List String) :
    SchemaObject → List String → Nat → Option SchemaObject
  | so, [], _ => some so
  | so, n :: ns, i =>
    match types[i]? with
    | none => none
    | some t => udt_zip_loop types (so.push_field n t false) ns (i + 1)

/-- The schema object one UDT catalog row produces: the zip loop starting
from the empty object at index zero. -/
def udt_schema_object (field_names field_types : List String) : Option SchemaObject :=
  udt_zip_loop field_types SchemaObject.new field_names 0

/-! ## JSON serialization of the schema snapshot

get_current_schema_as_json pretty-prints the serde rendering of DbSchema.
The embedding works at the JSON-value level: the derived Serialize instance
produces the JSON tree below (spec section 6 gives the key set), and the
pretty-printing / string-parsing pair is the serde_json external contract.
Json values carry only the shapes this data model uses. -/

inductive Json where
  | str (s : String)
  | bool (b : Bool)
  | arr (xs : List Json)
  | obj (entries : List (String × Json))

/-- Modelled from the spec: the serde rendering of one schema object — an
object with the five keys of spec section 6; field entries render as a
name-keyed object of [type, is-static] pairs, key lists as string arrays,
index lists as arrays of [name, target] pairs. -/
def SchemaObject.toJson (o : SchemaObject) : Json :=
  .obj
    [("fields", .obj (o.fields.map fun f => (f.1, .arr [.str f.2.1, .bool f.2.2]))),
      ("partition_keys", .arr (o.partition_keys.map .str)),
      ("clustering_keys", .arr (o.clustering_keys.map .str)),
      ("global_secondary_indexes",
        .arr (o.global_secondary_indexes.map fun p => .arr [.str p.1, .str p.2])),
      ("local_secondary_indexes",
        .arr (o.local_secondary_indexes.map fun p => .arr [.str p.1, .str p.2]))]

/-- Modelled from the spec: the serde rendering of the whole snapshot — an
object with keys tables, udts, materialized_views (each a name-keyed object of
schema objects) and keyspace_name. -/
def DbSchema.toJson (s : DbSchema) : Json :=
  .obj
    [("tables", .obj (s.tables.map fun p => (p.1, p.2.toJson))),
      ("udts", .obj (s.udts.map fun p => (p.1, p.2.toJson))),
      ("materialized_views", .obj (s.materialized_views.map fun p => (p.1, p.2.toJson))),
      ("keyspace_name", .str s.keyspace_name)]

/-- get_current_schema_as_json, at the JSON-value level: the serde rendering
of the snapshot (the source then pretty-prints this value to a string). -/
def DbSchema.get_current_schema_as_json (s : DbSchema) : Json :=
  s.toJson

/-- Mapping a decoder over a list, failing if any element fails. -/
def mapOption {α β : Type} (f : α → Option β) : List α → Option (List β)
  | [] => some []
  | a :: t =>
    match f a, mapOption f t with
    | some b, some bs => some (b :: bs)
    | _, _ => none

def decodeStr : Json → Option String
  | .str s => some s
  | _ => none

def decodeStrPair : Json → Option (String × String)
  | .arr [.str a, .str b] => some (a, b)
  | _ => none

def decodeFieldEntry : String × Json → Option (String × String × Bool)
  | (n, .arr [.str t, .bool b]) => some (n, t, b)
  | _ => none

/-- Parsing one schema object back out of its JSON rendering. -/
def SchemaObject.fromJson : Json → Option SchemaObject
  | .obj [("fields", .obj fs), ("partition_keys", .arr pk), ("clustering_keys", .arr ck),
      ("global_secondary_indexes", .arr gs), ("local_secondary_indexes", .arr ls)] => do
    let fields ← mapOption decodeFieldEntry fs
    let partition_keys ← mapOption decodeStr pk
    let clustering_keys ← mapOption decodeStr ck
    let global_secondary_indexes ← mapOption decodeStrPair gs
    let local_secondary_indexes ← mapOption decodeStrPair ls
    pure { fields := fields
           partition_keys := partition_keys
           clustering_keys := clustering_keys
           global_secondary_indexes := global_secondary_indexes
           local_secondary_indexes := local_secondary_indexes }
  | _ => none

def decodeObjectEntry (e : String × Json) : Option (String × SchemaObject) :=
  (SchemaObject.fromJson e.2).map fun o => (e.1, o)

def decodeObjects : Json → Option (List (String × SchemaObject))
  | .obj entries => mapOption decodeObjectEntry entries
  | _ => none

/-- Parsing the whole snapshot back out of its JSON rendering (the
schema-snapshot shape of the round-trip property). -/
def DbSchema.fromJson : Json → Option DbSchema
  | .obj [("tables", t), ("udts", u), ("materialized_views", v), ("keyspace_name", .str k)] => do
    let tables ← decodeObjects t
    let udts ← decodeObjects u
    let materialized_views ← decodeObjects v
    pure { tables := tables
           udts := udts
           materialized_views := materialized_views
           keyspace_name := k }
  | _ => none

/-! ## Concrete instantiations (used by witness theorems) -/

/-- A concrete driver-type bundle with every opaque type instantiated at Nat
and start-of-result paging state 0. -/
def natDrv : Drv :=
  { Consistency := Nat
    SerialConsistency := Nat
    Duration := Nat
    RetryPolicy := Nat
    HistoryListener := Nat
    ProfileHandle := Nat
    PagingState := Nat
    paging_start := 0
    QueryErr := Nat }

/-- A concrete model: instances are Nat, the primary key is the instance mod
10, the partition key the instance mod 2. -/
def natSig : ModelSig :=
  { M := Nat
    PrimaryKey := Nat
    PartitionKey := Nat
    primary_key_values := fun m => m % 10
    partition_key_values := fun m => m % 2
    FIND_BY_PRIMARY_KEY_QUERY := "SELECT * FROM users WHERE id = ?"
    FIND_BY_PARTITION_KEY_QUERY := "SELECT * FROM users WHERE org = ?"
    FIND_FIRST_BY_PARTITION_KEY_QUERY := "SELECT * FROM users WHERE org = ? LIMIT 1" }

/-- A concrete single-row query over natSig with no bound values, used by a
witness. -/
def natModelRowQuery : CharybdisQuery natDrv Unit natSig ExecutorTag.modelRow :=
  CharybdisQuery.new "SELECT * FROM users WHERE id = ?" QueryValue.Empty

/-- The same query under the optional-row strategy, used by a witness. -/
def natOptionalRowQuery : CharybdisQuery natDrv Unit natSig ExecutorTag.optionalModelRow :=
  CharybdisQuery.new "SELECT * FROM users WHERE id = ?" QueryValue.Empty

/-- A row decoder that always fails with error 42, used by a witness. -/
def natFailingDecode : Nat → Except Nat natSig.M :=
  fun _ => .error 42

/-- A concrete callback action whose before-execute hook increments the
model, whose bound value is the post-hook primary key, and whose
after-execute hook fails; used by a witness. -/
def natCbAction : CallbackActionImpl natSig Unit Unit String :=
  { before_execute := fun m _ => .ok (Nat.succ m)
    query_value := fun m => QueryValue.PrimaryKey (natSig.primary_key_values m)
    after_execute := fun _ _ => .error "after failed" }

/-- A concrete callback-wrapped mutation over natSig, used by a witness. -/
def natCbQuery : CharybdisCbQuery natDrv Unit natSig Unit :=
  CharybdisCbQuery.new "UPDATE users SET tags = tags + ? WHERE id = ?" (5 : Nat) ()

/-- A stub session that acknowledges every execution with a rowless result,
used by a witness. -/
def natCbSession : String → QueryValue Unit natSig → Except natDrv.QueryErr (QueryResultRows Nat) :=
  fun _ _ => .ok { rows := none }

/-! ## Helper lemmas -/

/-- The generator bodies all have the shape filterMap (skip non-collection,
emit g); that equals mapping g over the collection-typed fields, in declared
order. -/
theorem filterMap_collection_eq {α : Type} (g : CharybdisField → α)
    (l : List CharybdisField) :
    (l.filterMap fun field => if !field.is_collection then none else some (g field)) =
      (l.filter fun field => field.is_collection).map g := by
  induction l with
  | nil => rfl
  | cons a t ih =>
    cases h : a.is_collection <;>
      simp [List.filterMap_cons, List.filter_cons, h] <;>
      simpa using ih

theorem push_consts_eq (args : CharybdisMacroArgsModel) (fields : CharybdisFieldsModel) :
    push_to_collection_consts args fields =
      (fields.db_fields.filter fun f => f.is_collection).map fun f =>
        ("PUSH_" ++ f.name.toUpper ++ "_QUERY",
          "UPDATE " ++ args.table_name ++ " SET " ++ f.name ++ " = " ++ f.name
            ++ " + ? WHERE " ++ fields.where_placeholders) :=
  filterMap_collection_eq _ _

theorem push_consts_if_exists_eq (args : CharybdisMacroArgsModel)
    (fields : CharybdisFieldsModel) :
    push_to_collection_consts_if_exists args fields =
      (fields.db_fields.filter fun f => f.is_collection).map fun f =>
        ("PUSH_" ++ f.name.toUpper ++ "_IF_EXISTS_QUERY",
          "UPDATE " ++ args.table_name ++ " SET " ++ f.name ++ " = " ++ f.name
            ++ " + ? WHERE " ++ fields.where_placeholders ++ " IF EXISTS") :=
  filterMap_collection_eq _ _

theorem pull_consts_eq (args : CharybdisMacroArgsModel) (fields : CharybdisFieldsModel) :
    pull_from_collection_consts args fields =
      (fields.db_fields.filter fun f => f.is_collection).map fun f =>
        ("PULL_" ++ f.name.toUpper ++ "_QUERY",
          "UPDATE " ++ args.table_name ++ " SET " ++ f.name ++ " = " ++ f.name
            ++ " - ? WHERE " ++ fields.where_placeholders) :=
  filterMap_collection_eq _ _

theorem pull_consts_if_exists_eq (args : CharybdisMacroArgsModel)
    (fields : CharybdisFieldsModel) :
    pull_from_collection_consts_if_exists args fields =
      (fields.db_fields.filter fun f => f.is_collection).map fun f =>
        ("PULL_" ++ f.name.toUpper ++ "_IF_EXISTS_QUERY",
          "UPDATE " ++ args.table_name ++ " SET " ++ f.name ++ " = " ++ f.name
            ++ " - ? WHERE " ++ fields.where_placeholders ++ " IF EXISTS") :=
  filterMap_collection_eq _ _

theorem push_methods_eq (fields : CharybdisFieldsModel) :
    push_to_collection_methods fields =
      (fields.db_fields.filter fun f => f.is_collection).map fun f =>
        ("push_" ++ f.name, "PUSH_" ++ f.name.toUpper ++ "_QUERY") :=
  filterMap_collection_eq _ _

theorem push_methods_if_exists_eq (fields : CharybdisFieldsModel) :
    push_to_collection_methods_if_exists fields =
      (fields.db_fields.filter fun f => f.is_collection).map fun f =>
        ("push_" ++ f.name ++ "_if_exists", "PUSH_" ++ f.name.toUpper ++ "_IF_EXISTS_QUERY") :=
  filterMap_collection_eq _ _

theorem pull_methods_eq (fields : CharybdisFieldsModel) :
    pull_from_collection_methods fields =
      (fields.db_fields.filter fun f => f.is_collection).map fun f =>
        ("pull_" ++ f.name, "PULL_" ++ f.name.toUpper ++ "_QUERY") :=
  filterMap_collection_eq _ _

theorem pull_methods_if_exists_eq (fields : CharybdisFieldsModel) :
    pull_from_collection_methods_if_exists fields =
      (fields.db_fields.filter fun f => f.is_collection).map fun f =>
        ("pull_" ++ f.name ++ "_if_exists", "PULL_" ++ f.name.toUpper ++ "_IF_EXISTS_QUERY") :=
  filterMap_collection_eq _ _

/-- With no collection-typed field, the collection filter is empty. -/
theorem filter_collection_nil (l : List CharybdisField)
    (h : ∀ f ∈ l, f.is_collection = false) :
    l.filter (fun f => f.is_collection) = [] := by
  induction l with
  | nil => rfl
  | cons a t ih =>
    have ha := h a (by simp)
    simp only [List.filter_cons, ha, if_neg]
    exact ih fun f hf => h f (by simp [hf])

/-! ## Claim theorems -/

/-- C1: for every collection-typed field on table T with primary-key
placeholder clause W, the generator emits exactly the four constants
PUSH_F_QUERY, PUSH_F_IF_EXISTS_QUERY, PULL_F_QUERY, PULL_F_IF_EXISTS_QUERY
(F the column name upper-cased) whose values are the UPDATE templates, the
IF EXISTS variants being the plain variants plus " IF EXISTS"; non-collection
fields contribute no constants and no methods; generated items follow the
declared field order. -/
theorem collection_consts_contract (args : CharybdisMacroArgsModel)
    (fields : CharybdisFieldsModel) :
    (push_to_collection_consts args fields =
      (fields.db_fields.filter fun f => f.is_collection).map fun f =>
        ("PUSH_" ++ f.name.toUpper ++ "_QUERY",
          "UPDATE " ++ args.table_name ++ " SET " ++ f.name ++ " = " ++ f.name
            ++ " + ? WHERE " ++ fields.where_placeholders))
  ∧ (push_to_collection_consts_if_exists args fields =
      (fields.db_fields.filter fun f => f.is_collection).map fun f =>
        ("PUSH_" ++ f.name.toUpper ++ "_IF_EXISTS_QUERY",
          "UPDATE " ++ args.table_name ++ " SET " ++ f.name ++ " = " ++ f.name
            ++ " + ? WHERE " ++ fields.where_placeholders ++ " IF EXISTS"))
  ∧ (pull_from_collection_consts args fields =
      (fields.db_fields.filter fun f => f.is_collection).map fun f =>
        ("PULL_" ++ f.name.toUpper ++ "_QUERY",
          "UPDATE " ++ args.table_name ++ " SET " ++ f.name ++ " = " ++ f.name
            ++ " - ? WHERE " ++ fields.where_placeholders))
  ∧ (pull_from_collection_consts_if_exists args fields =
      (fields.db_fields.filter fun f => f.is_collection).map fun f =>
        ("PULL_" ++ f.name.toUpper ++ "_IF_EXISTS_QUERY",
          "UPDATE " ++ args.table_name ++ " SET " ++ f.name ++ " = " ++ f.name
            ++ " - ? WHERE " ++ fields.where_placeholders ++ " IF EXISTS"))
  ∧ ((push_to_collection_consts_if_exists args fields).map Prod.snd =
      (push_to_collection_consts args fields).map fun p => p.2 ++ " IF EXISTS")
  ∧ ((pull_from_collection_consts_if_exists args fields).map Prod.snd =
      (pull_from_collection_consts args fields).map fun p => p.2 ++ " IF EXISTS")
  ∧ ((∀ f ∈ fields.db_fields, f.is_collection = false) →
      push_to_collection_consts args fields = []
      ∧ push_to_collection_consts_if_exists args fields = []
      ∧ pull_from_collection_consts args fields = []
      ∧ pull_from_collection_consts_if_exists args fields = []
      ∧ push_to_collection_methods fields = []
      ∧ push_to_collection_methods_if_exists fields = []
      ∧ pull_from_collection_methods fields = []
      ∧ pull_from_collection_methods_if_exists fields = []) := by
  refine ⟨push_consts_eq args fields, push_consts_if_exists_eq args fields,
    pull_consts_eq args fields, pull_consts_if_exists_eq args fields, ?_, ?_, fun h => ?_⟩
  · simp [push_consts_eq, push_consts_if_exists_eq, List.map_map, Function.comp]
  · simp [pull_consts_eq, pull_consts_if_exists_eq, List.map_map, Function.comp]
  · have hnil := filter_collection_nil fields.db_fields h
    simp [push_consts_eq, push_consts_if_exists_eq, pull_consts_eq,
      pull_consts_if_exists_eq, push_methods_eq, push_methods_if_exists_eq,
      pull_methods_eq, pull_methods_if_exists_eq, hnil]

/-- Witness for C1: at a model whose only field is non-collection, nothing
is generated. -/
theorem collection_consts_contract_witness :
    push_to_collection_consts ⟨"articles"⟩ ⟨[⟨"id", false⟩], "id = ?"⟩ = []
    ∧ push_to_collection_methods ⟨[⟨"id", false⟩], "id = ?"⟩ = [] := by
  have h :=
    (collection_consts_contract ⟨"articles"⟩ ⟨[⟨"id", false⟩], "id = ?"⟩).2.2.2.2.2.2
      (by decide)
  exact ⟨h.1, h.2.2.2.2.1⟩

/-- C4: for every collection-typed field f the generator emits the four
builder methods push_f, push_f_if_exists, pull_f, pull_f_if_exists in
declared field order, each referencing the corresponding generated constant
(whose (name, template value) pair is among the emitted constants); the
runtime behavior of a generated method body is the pure construction of a
ModelMutation-strategy CharybdisQuery bound to
QueryValue.Owned (value, primary-key values), reading the receiver only
through its primary-key values and performing no execution state changes at
construction. -/
theorem collection_methods_contract (D : Drv) {V : Type} (S : ModelSig)
    (args : CharybdisMacroArgsModel) (fields : CharybdisFieldsModel) :
    (push_to_collection_methods fields =
      (fields.db_fields.filter fun f => f.is_collection).map fun f =>
        ("push_" ++ f.name, "PUSH_" ++ f.name.toUpper ++ "_QUERY"))
  ∧ (push_to_collection_methods_if_exists fields =
      (fields.db_fields.filter fun f => f.is_collection).map fun f =>
        ("push_" ++ f.name ++ "_if_exists", "PUSH_" ++ f.name.toUpper ++ "_IF_EXISTS_QUERY"))
  ∧ (pull_from_collection_methods fields =
      (fields.db_fields.filter fun f => f.is_collection).map fun f =>
        ("pull_" ++ f.name, "PULL_" ++ f.name.toUpper ++ "_QUERY"))
  ∧ (pull_from_collection_methods_if_exists fields =
      (fields.db_fields.filter fun f => f.is_collection).map fun f =>
        ("pull_" ++ f.name ++ "_if_exists", "PULL_" ++ f.name.toUpper ++ "_IF_EXISTS_QUERY"))
  ∧ (∀ f ∈ fields.db_fields, f.is_collection = true →
      ("PUSH_" ++ f.name.toUpper ++ "_QUERY",
        "UPDATE " ++ args.table_name ++ " SET " ++ f.name ++ " = " ++ f.name
          ++ " + ? WHERE " ++ fields.where_placeholders)
        ∈ push_to_collection_consts args fields)
  ∧ (∀ f ∈ fields.db_fields, f.is_collection = true →
      ("PUSH_" ++ f.name.toUpper ++ "_IF_EXISTS_QUERY",
        "UPDATE " ++ args.table_name ++ " SET " ++ f.name ++ " = " ++ f.name
          ++ " + ? WHERE " ++ fields.where_placeholders ++ " IF EXISTS")
        ∈ push_to_collection_consts_if_exists args fields)
  ∧ (∀ f ∈ fields.db_fields, f.is_collection = true →
      ("PULL_" ++ f.name.toUpper ++ "_QUERY",
        "UPDATE " ++ args.table_name ++ " SET " ++ f.name ++ " = " ++ f.name
          ++ " - ? WHERE " ++ fields.where_placeholders)
        ∈ pull_from_collection_consts args fields)
  ∧ (∀ f ∈ fields.db_fields, f.is_collection = true →
      ("PULL_" ++ f.name.toUpper ++ "_IF_EXISTS_QUERY",
        "UPDATE " ++ args.table_name ++ " SET " ++ f.name ++ " = " ++ f.name
          ++ " - ? WHERE " ++ fields.where_placeholders ++ " IF EXISTS")
        ∈ pull_from_collection_consts_if_exists args fields)
  ∧ (∀ (const_val : String) (self : S.M) (value : V),
      generated_collection_method (D := D) S const_val self value =
        { inner := QueryInner.new D const_val
          paging_state := D.paging_start
          query_string := const_val
          values := QueryValue.Owned (value, S.primary_key_values self) })
  ∧ (∀ (const_val : String) (m1 m2 : S.M) (value : V),
      S.primary_key_values m1 = S.primary_key_values m2 →
      generated_collection_method (D := D) S const_val m1 value =
        generated_collection_method (D := D) S const_val m2 value) := by
  refine ⟨push_methods_eq fields, push_methods_if_exists_eq fields,
    pull_methods_eq fields, pull_methods_if_exists_eq fields,
    ?_, ?_, ?_, ?_, fun cv self v => rfl, fun cv m1 m2 v h => ?_⟩
  · intro f hf hcol
    rw [push_consts_eq]
    exact List.mem_map.mpr ⟨f, List.mem_filter.mpr ⟨hf, by simp [hcol]⟩, rfl⟩
  · intro f hf hcol
    rw [push_consts_if_exists_eq]
    exact List.mem_map.mpr ⟨f, List.mem_filter.mpr ⟨hf, by simp [hcol]⟩, rfl⟩
  · intro f hf hcol
    rw [pull_consts_eq]
    exact List.mem_map.mpr ⟨f, List.mem_filter.mpr ⟨hf, by simp [hcol]⟩, rfl⟩
  · intro f hf hcol
    rw [pull_consts_if_exists_eq]
    exact List.mem_map.mpr ⟨f, List.mem_filter.mpr ⟨hf, by simp [hcol]⟩, rfl⟩
  · simp [generated_collection_method, h]

/-- Witness for C4: the tags column of the articles table has its PUSH
constant among the generated constants, and two distinct model instances with
equal primary keys produce the same generated-method output. -/
theorem collection_methods_contract_witness :
    ("PUSH_" ++ "tags".toUpper ++ "_QUERY",
        "UPDATE " ++ "articles" ++ " SET " ++ "tags" ++ " = " ++ "tags"
          ++ " + ? WHERE " ++ "id = ?")
      ∈ push_to_collection_consts ⟨"articles"⟩ ⟨[⟨"tags", true⟩], "id = ?"⟩
    ∧ generated_collection_method (D := natDrv) natSig "q" (3 : Nat) (0 : Nat) =
        generated_collection_method (D := natDrv) natSig "q" (13 : Nat) (0 : Nat) := by
  have h := collection_methods_contract natDrv (V := Nat) natSig
    ⟨"articles"⟩ ⟨[⟨"tags", true⟩], "id = ?"⟩
  exact ⟨h.2.2.2.2.1 ⟨"tags", true⟩ (by decide) rfl,
    h.2.2.2.2.2.2.2.2.2 "q" (3 : Nat) (13 : Nat) (0 : Nat) rfl⟩

/-- C2: under the ModelRow strategy a successful transport response with zero
rows yields the distinct not-found kind (never a decode failure), a
non-decodable first row yields the row-typing kind, and a transport failure
yields the query kind; the same query under OptionalModelRow yields none on
zero rows rather than any failure. -/
theorem model_row_error_taxonomy (D : Drv) {Val Row FromRowErr : Type} (S : ModelSig)
    (q : CharybdisQuery D Val S .modelRow)
    (q2 : CharybdisQuery D Val S .optionalModelRow)
    (decode : Row → Except FromRowErr S.M) :
    (modelRowExecute q decode (.ok { rows := some [] }) =
      .error (.NotFoundError q.query_string))
  ∧ (∀ (r : Row) (rs : List Row) (d : FromRowErr), decode r = .error d →
      modelRowExecute q decode (.ok { rows := some (r :: rs) }) =
        .error (.FirstRowTypedError q.query_string (.fromRowErr d)))
  ∧ (∀ e, modelRowExecute q decode (.error e) = .error (.QueryError q.query_string e))
  ∧ (optionalModelRowExecute q2 decode (.ok { rows := some [] }) = .ok none)
  ∧ (∀ e, optionalModelRowExecute q2 decode (.error e) =
      .error (.QueryError q2.query_string e)) := by
  refine ⟨rfl, fun r rs d h => ?_, fun e => rfl, rfl, fun e => rfl⟩
  simp [modelRowExecute, first_row_typed, h]

/-- Witness for C2: a concrete first row that fails to decode is reported as
the row-typing failure kind carrying the query string. -/
theorem model_row_error_taxonomy_witness :
    modelRowExecute natModelRowQuery natFailingDecode (.ok { rows := some [7] }) =
      .error (.FirstRowTypedError "SELECT * FROM users WHERE id = ?" (.fromRowErr 42)) := by
  exact (model_row_error_taxonomy natDrv natSig natModelRowQuery natOptionalRowQuery
    natFailingDecode).2.1 7 [] 42 rfl

/-- C3: for a callback-wrapped mutation, a failing before-execute hook means
no session execution is issued and the model's own error is surfaced; a
succeeding before-execute hook means the bound QueryValue is derived from the
post-hook model state, the inner ModelMutation execution is issued exactly
once, and a failing after-execute hook is still surfaced even though the
mutation was applied. -/
theorem callback_mutation_pipeline (D : Drv) {Val Ext Err Row FromRowErr : Type}
    (S : ModelSig)
    (cba : CallbackActionImpl S Val Ext Err)
    (from_ch : CharybdisError D FromRowErr → Err)
    (q : CharybdisCbQuery D Val S Ext)
    (session : String → QueryValue Val S → Except D.QueryErr (QueryResultRows Row)) :
    (∀ e, cba.before_execute q.model q.extension = .error e →
      CharybdisCbQuery.execute FromRowErr cba from_ch q session = (.error e, []))
  ∧ (∀ m2, cba.before_execute q.model q.extension = .ok m2 →
      (CharybdisCbQuery.execute FromRowErr cba from_ch q session).2 =
        [(q.inner.query_string, cba.query_value m2)]
      ∧ (∀ res e2, session q.inner.query_string (cba.query_value m2) = .ok res →
          cba.after_execute m2 q.extension = .error e2 →
          CharybdisCbQuery.execute FromRowErr cba from_ch q session =
            (.error e2, [(q.inner.query_string, cba.query_value m2)]))) := by
  refine ⟨fun e h => ?_, fun m2 h => ⟨?_, fun res e2 hs ha => ?_⟩⟩
  · simp [CharybdisCbQuery.execute, h]
  · simp only [CharybdisCbQuery.execute, h]
    cases hs : session q.inner.query_string (cba.query_value m2) with
    | error e =>
      simp [CharybdisQuery.with_values, hs, modelMutationExecute]
    | ok res =>
      cases ha : cba.after_execute m2 q.extension <;>
        simp [CharybdisQuery.with_values, hs, ha, modelMutationExecute]
  · simp [CharybdisCbQuery.execute, CharybdisQuery.with_values, h, hs, ha,
      modelMutationExecute]

/-- Witness for C3: a concrete callback action whose before-execute hook
increments the model and whose after-execute hook fails: the single issued
execution binds the post-hook primary key and the after-hook error is
surfaced. -/
theorem callback_mutation_pipeline_witness :
    CharybdisCbQuery.execute Nat natCbAction (fun _ => "charybdis error")
        natCbQuery natCbSession =
      (.error "after failed",
        [("UPDATE users SET tags = tags + ? WHERE id = ?",
          QueryValue.PrimaryKey (natSig.primary_key_values (6 : Nat)))]) := by
  exact ((callback_mutation_pipeline natDrv natSig natCbAction
    (fun _ => "charybdis error") natCbQuery natCbSession).2 (6 : Nat) rfl).2
    { rows := none } "after failed" rfl rfl

/-- C5: every typed finder operation is free of side effects and only
constructs an unexecuted builder — the result is exactly the freshly
constructed builder value bound to the stated constant (executor strategy
pinned in the return type): find_by_primary_key_value and its maybe variant
bind the caller-supplied primary key against FIND_BY_PRIMARY_KEY_QUERY;
find_by_partition_key_value (stream) and find_by_partition_key_value_paged
(page) both bind FIND_BY_PARTITION_KEY_QUERY;
find_first_by_partition_key_value binds FIND_FIRST_BY_PARTITION_KEY_QUERY
(single row); the instance-method variants bind the key values read from
self. -/
theorem finder_operations_contract (D : Drv) {Val : Type} (S : ModelSig)
    (query : String) (values : Val) (ps : D.PagingState)
    (pk : S.PrimaryKey) (pak : S.PartitionKey) (self : S.M) :
    (Find.find D S query values =
      { inner := QueryInner.new D query
        paging_state := D.paging_start
        query_string := query
        values := QueryValue.Owned values })
  ∧ (Find.find_paged D S query values ps =
      { inner := QueryInner.new D query
        paging_state := ps
        query_string := query
        values := QueryValue.Owned values })
  ∧ (Find.find_first D S query values =
      { inner := QueryInner.new D query
        paging_state := D.paging_start
        query_string := query
        values := QueryValue.Owned values })
  ∧ (Find.maybe_find_first D S query values =
      { inner := QueryInner.new D query
        paging_state := D.paging_start
        query_string := query
        values := QueryValue.Owned values })
  ∧ (Find.find_by_primary_key_value D S pk =
      { inner := QueryInner.new D S.FIND_BY_PRIMARY_KEY_QUERY
        paging_state := D.paging_start
        query_string := S.FIND_BY_PRIMARY_KEY_QUERY
        values := QueryValue.Owned pk })
  ∧ (Find.maybe_find_by_primary_key_value D S pk =
      { inner := QueryInner.new D S.FIND_BY_PRIMARY_KEY_QUERY
        paging_state := D.paging_start
        query_string := S.FIND_BY_PRIMARY_KEY_QUERY
        values := QueryValue.Owned pk })
  ∧ (Find.find_by_partition_key_value D S pak =
      { inner := QueryInner.new D S.FIND_BY_PARTITION_KEY_QUERY
        paging_state := D.paging_start
        query_string := S.FIND_BY_PARTITION_KEY_QUERY
        values := QueryValue.Owned pak })
  ∧ (Find.find_first_by_partition_key_value D S pak =
      { inner := QueryInner.new D S.FIND_FIRST_BY_PARTITION_KEY_QUERY
        paging_state := D.paging_start
        query_string := S.FIND_FIRST_BY_PARTITION_KEY_QUERY
        values := QueryValue.Owned pak })
  ∧ (Find.find_by_partition_key_value_paged D S pak =
      { inner := QueryInner.new D S.FIND_BY_PARTITION_KEY_QUERY
        paging_state := D.paging_start
        query_string := S.FIND_BY_PARTITION_KEY_QUERY
        values := QueryValue.Owned pak })
  ∧ (Find.find_by_primary_key D S self =
      { inner := QueryInner.new D S.FIND_BY_PRIMARY_KEY_QUERY
        paging_state := D.paging_start
        query_string := S.FIND_BY_PRIMARY_KEY_QUERY
        values := QueryValue.Owned (S.primary_key_values self) })
  ∧ (Find.maybe_find_by_primary_key D S self =
      { inner := QueryInner.new D S.FIND_BY_PRIMARY_KEY_QUERY
        paging_state := D.paging_start
        query_string := S.FIND_BY_PRIMARY_KEY_QUERY
        values := QueryValue.Owned (S.primary_key_values self) })
  ∧ (Find.find_by_partition_key D S self =
      { inner := QueryInner.new D S.FIND_BY_PARTITION_KEY_QUERY
        paging_state := D.paging_start
        query_string := S.FIND_BY_PARTITION_KEY_QUERY
        values := QueryValue.Owned (S.partition_key_values self) }) :=
  ⟨rfl, rfl, rfl, rfl, rfl, rfl, rfl, rfl, rfl, rfl, rfl, rfl⟩

/-- C6: QueryValue serialization and emptiness are uniform over all six
shapes: Empty always reports empty and serializes to zero bound parameters,
succeeding; every other shape delegates both operations to the underlying
value. -/
theorem query_value_uniformity {Cell SerErr Val : Type} (S : ModelSig)
    (sv : SerializeRowImpl Cell SerErr Val)
    (spk : SerializeRowImpl Cell SerErr S.PrimaryKey)
    (spart : SerializeRowImpl Cell SerErr S.PartitionKey)
    (sm : SerializeRowImpl Cell SerErr S.M) :
    (QueryValue.serialize sv spk spart sm (.Empty) = .ok ([] : List Cell))
  ∧ (QueryValue.is_empty sv spk spart sm (.Empty) = true)
  ∧ (∀ v : Val, QueryValue.serialize sv spk spart sm (.Owned v) = sv.ser v
      ∧ QueryValue.is_empty sv spk spart sm (.Owned v) = sv.is_empty v)
  ∧ (∀ v : Val, QueryValue.serialize sv spk spart sm (.Ref v) = sv.ser v
      ∧ QueryValue.is_empty sv spk spart sm (.Ref v) = sv.is_empty v)
  ∧ (∀ v : S.PrimaryKey, QueryValue.serialize sv spk spart sm (.PrimaryKey v) = spk.ser v
      ∧ QueryValue.is_empty sv spk spart sm (.PrimaryKey v) = spk.is_empty v)
  ∧ (∀ v : S.PartitionKey, QueryValue.serialize sv spk spart sm (.PartitionKey v) = spart.ser v
      ∧ QueryValue.is_empty sv spk spart sm (.PartitionKey v) = spart.is_empty v)
  ∧ (∀ m : S.M, QueryValue.serialize sv spk spart sm (.Model m) = sm.ser m
      ∧ QueryValue.is_empty sv spk spart sm (.Model m) = sm.is_empty m) :=
  ⟨rfl, rfl, fun _ => ⟨rfl, rfl⟩, fun _ => ⟨rfl, rfl⟩, fun _ => ⟨rfl, rfl⟩,
    fun _ => ⟨rfl, rfl⟩, fun _ => ⟨rfl, rfl⟩⟩

/-- C7: every builder configuration setter is a pure value transformation
that rewrites exactly its own option and preserves every unrelated part of
the receiver (shown by the record-update equations); repeated calls to the
same setter are idempotent with last write winning; and a freshly
constructed builder has the paging cursor at start-of-result with all other
options unset and both flags off. -/
theorem builder_setters_contract (D : Drv) {Val : Type} (S : ModelSig) (Qe : ExecutorTag)
    (q : CharybdisQuery D Val S Qe) (query : String) (v : QueryValue Val S)
    (n n2 : Int) (c c2 : D.Consistency) (sc sc2 : Option D.SerialConsistency)
    (ps ps2 : D.PagingState) (b b2 : Bool) (b3 b4 : Bool)
    (t t2 : Option Int) (d d2 : Option D.Duration)
    (r r2 : Option D.RetryPolicy) (hl hl2 : D.HistoryListener)
    (ph ph2 : Option D.ProfileHandle) :
    (q.page_size n = { q with inner := { q.inner with page_size := some n } }
      ∧ (q.page_size n).page_size n2 = q.page_size n2)
  ∧ (q.consistency c = { q with inner := { q.inner with consistency := some c } }
      ∧ (q.consistency c).consistency c2 = q.consistency c2)
  ∧ (q.serial_consistency sc = { q with inner := { q.inner with serial_consistency := sc } }
      ∧ (q.serial_consistency sc).serial_consistency sc2 = q.serial_consistency sc2)
  ∧ (q.set_paging_state ps = { q with paging_state := ps }
      ∧ (q.set_paging_state ps).set_paging_state ps2 = q.set_paging_state ps2)
  ∧ (q.idempotent b = { q with inner := { q.inner with is_idempotent := b } }
      ∧ (q.idempotent b).idempotent b2 = q.idempotent b2)
  ∧ (q.trace b3 = { q with inner := { q.inner with tracing := b3 } }
      ∧ (q.trace b3).trace b4 = q.trace b4)
  ∧ (q.timestamp t = { q with inner := { q.inner with timestamp := t } }
      ∧ (q.timestamp t).timestamp t2 = q.timestamp t2)
  ∧ (q.timeout d = { q with inner := { q.inner with request_timeout := d } }
      ∧ (q.timeout d).timeout d2 = q.timeout d2)
  ∧ (q.retry_policy r = { q with inner := { q.inner with retry_policy := r } }
      ∧ (q.retry_policy r).retry_policy r2 = q.retry_policy r2)
  ∧ (q.history_listener hl = { q with inner := { q.inner with history_listener := some hl } }
      ∧ (q.history_listener hl).history_listener hl2 = q.history_listener hl2
      ∧ q.remove_history_listener =
          { q with inner := { q.inner with history_listener := none } }
      ∧ q.remove_history_listener.remove_history_listener = q.remove_history_listener)
  ∧ (q.profile_handle ph = { q with inner := { q.inner with profile_handle := ph } }
      ∧ (q.profile_handle ph).profile_handle ph2 = q.profile_handle ph2)
  ∧ ((CharybdisQuery.new query v : CharybdisQuery D Val S Qe) =
      { inner :=
          { contents := query
            page_size := none
            consistency := none
            serial_consistency := none
            is_idempotent := false
            tracing := false
            timestamp := none
            request_timeout := none
            retry_policy := none
            history_listener := none
            profile_handle := none }
        paging_state := D.paging_start
        query_string := query
        values := v }) :=
  ⟨⟨rfl, rfl⟩, ⟨rfl, rfl⟩, ⟨rfl, rfl⟩, ⟨rfl, rfl⟩, ⟨rfl, rfl⟩, ⟨rfl, rfl⟩,
    ⟨rfl, rfl⟩, ⟨rfl, rfl⟩, ⟨rfl, rfl⟩, ⟨rfl, rfl, rfl, rfl⟩, ⟨rfl, rfl⟩, rfl⟩

/-- C8: any catalog-phase failure during DbSchema::new aborts the whole
introspection — no partial schema value reaches the caller — after logging
the offending phase and underlying error highlighted; when all three phases
succeed the full schema is returned with nothing logged (so a schema is
produced only when every phase succeeded). -/
theorem db_schema_new_fatal_phases {E : Type} (k : String)
    (tp up mp : DbSchema → Except E DbSchema) (fmt : E → String) :
    (∀ e, tp { tables := [], udts := [], materialized_views := [], keyspace_name := k } =
        .error e →
      DbSchema.new k tp up mp fmt =
        ([{ message := "Error getting tables from system_schema: " ++ fmt e,
            highlighted := true }], none))
  ∧ (∀ s1 e,
      tp { tables := [], udts := [], materialized_views := [], keyspace_name := k } = .ok s1 →
      up s1 = .error e →
      DbSchema.new k tp up mp fmt =
        ([{ message := "Error getting udts from system_schema: " ++ fmt e,
            highlighted := true }], none))
  ∧ (∀ s1 s2 e,
      tp { tables := [], udts := [], materialized_views := [], keyspace_name := k } = .ok s1 →
      up s1 = .ok s2 → mp s2 = .error e →
      DbSchema.new k tp up mp fmt =
        ([{ message := "Error getting materialized views from system_schema: " ++ fmt e,
            highlighted := true }], none))
  ∧ (∀ s1 s2 s3,
      tp { tables := [], udts := [], materialized_views := [], keyspace_name := k } = .ok s1 →
      up s1 = .ok s2 → mp s2 = .ok s3 →
      DbSchema.new k tp up mp fmt = ([], some s3)) := by
  refine ⟨fun e h => ?_, fun s1 e h1 h2 => ?_, fun s1 s2 e h1 h2 h3 => ?_,
    fun s1 s2 s3 h1 h2 h3 => ?_⟩
  · simp [DbSchema.new, h]
  · simp [DbSchema.new, h1, h2]
  · simp [DbSchema.new, h1, h2, h3]
  · simp [DbSchema.new, h1, h2, h3]

/-- Witness for C8: with a concrete failing udts phase, construction logs the
udts phase highlighted and yields no schema. -/
theorem db_schema_new_fatal_phases_witness :
    DbSchema.new "ks" (fun s => .ok s) (fun _ => .error 7) (fun s => .ok s)
        (fun e : Nat => toString e) =
      ([{ message := "Error getting udts from system_schema: " ++ toString (7 : Nat),
          highlighted := true }], none) := by
  exact (db_schema_new_fatal_phases "ks" (fun s => .ok s) (fun _ => .error 7)
    (fun s => .ok s) (fun e : Nat => toString e)).2.1
    { tables := [], udts := [], materialized_views := [], keyspace_name := "ks" } 7 rfl rfl

/-! ## Round-trip lemmas for the JSON rendering -/

theorem mapOption_decodeStr (l : List String) :
    mapOption decodeStr (l.map Json.str) = some l := by
  induction l with
  | nil => rfl
  | cons a t ih => simp [mapOption, decodeStr, ih]

theorem mapOption_decodeStrPair (l : List (String × String)) :
    mapOption decodeStrPair (l.map fun p => Json.arr [Json.str p.1, Json.str p.2]) =
      some l := by
  induction l with
  | nil => rfl
  | cons a t ih => simp [mapOption, decodeStrPair, ih]

theorem mapOption_decodeFieldEntry (l : List (String × String × Bool)) :
    mapOption decodeFieldEntry
        (l.map fun f => (f.1, Json.arr [Json.str f.2.1, Json.bool f.2.2])) = some l := by
  induction l with
  | nil => rfl
  | cons a t ih => simp [mapOption, decodeFieldEntry, ih]

theorem schemaObject_fromJson_toJson (o : SchemaObject) :
    SchemaObject.fromJson o.toJson = some o := by
  simp [SchemaObject.toJson, SchemaObject.fromJson, mapOption_decodeStr,
    mapOption_decodeStrPair, mapOption_decodeFieldEntry]

theorem decodeObjects_toJson (l : List (String × SchemaObject)) :
    decodeObjects (.obj (l.map fun p => (p.1, p.2.toJson))) = some l := by
  simp only [decodeObjects]
  induction l with
  | nil => rfl
  | cons a t ih =>
    simp [mapOption, decodeObjectEntry, schemaObject_fromJson_toJson, ih]

/-- C9: serializing a schema snapshot with get_current_schema_as_json and
parsing the result back into the schema-snapshot shape reproduces the same
tables, udts and materialized_views maps and the same keyspace name: the
serialization is lossless. -/
theorem db_schema_json_roundtrip (s : DbSchema) :
    DbSchema.fromJson (DbSchema.get_current_schema_as_json s) = some s := by
  simp [DbSchema.get_current_schema_as_json, DbSchema.toJson, DbSchema.fromJson,
    decodeObjects_toJson]

/-! ## Lemmas about the UDT field zip loop -/

theorem udt_zip_loop_ok (types : List String) :
    ∀ (names : List String) (i : Nat) (so : SchemaObject),
      i + names.length ≤ types.length →
      udt_zip_loop types so names i =
        some { so with
          fields := so.fields
            ++ names.zipWith (fun n t => (n, t, false)) (types.drop i) } := by
  intro names
  induction names with
  | nil => intro i so h; simp [udt_zip_loop]
  | cons n ns ih =>
    intro i so h
    have hi : i < types.length := by simp at h; omega
    have hget : types[i]? = some (types.get ⟨i, hi⟩) := List.getElem?_eq_getElem hi
    simp only [udt_zip_loop, hget]
    rw [ih (i + 1) _ (by simp at h ⊢; omega)]
    rw [List.drop_eq_getElem_cons hi]
    simp [SchemaObject.push_field, List.zipWith]

theorem udt_zip_loop_oob (types : List String) :
    ∀ (names : List String) (i : Nat) (so : SchemaObject),
      names ≠ [] → types.length < i + names.length →
      udt_zip_loop types so names i = none := by
  intro names
  induction names with
  | nil => intro i so hne _; exact absurd rfl hne
  | cons n ns ih =>
    intro i so _ h
    by_cases hi : i < types.length
    · have hget : types[i]? = some (types.get ⟨i, hi⟩) := List.getElem?_eq_getElem hi
      simp only [udt_zip_loop, hget]
      have hne2 : ns ≠ [] := by
        intro hnil
        subst hnil
        simp at h
        omega
      exact ih (i + 1) _ hne2 (by simp at h ⊢; omega)
    · have hget : types[i]? = none := by
        apply List.getElem?_eq_none
        omega
      simp [udt_zip_loop, hget]

/-- C10: the user-defined-types phase zips field_names with field_types by
the positional index of each name; one catalog row's processing is total
exactly under the precondition that field_types is at least as long as
field_names — then it produces the positionally zipped field entries (none
static) — while a row with strictly more field names than field types hits an
out-of-bounds index and panics (modelled as none) instead of returning an
error value. -/
theorem udt_zip_positional_contract :
    (∀ field_names field_types : List String,
        field_names.length ≤ field_types.length →
        udt_schema_object field_names field_types =
          some { SchemaObject.new with
            fields := field_names.zipWith (fun n t => (n, t, false)) field_types })
  ∧ (∀ field_names field_types : List String,
        field_types.length < field_names.length →
        udt_schema_object field_names field_types = none) := by
  constructor
  · intro names types h
    have hz := udt_zip_loop_ok types names 0 SchemaObject.new (by simpa using h)
    simpa [udt_schema_object, SchemaObject.new] using hz
  · intro names types h
    have hne : names ≠ [] := by
      intro hnil
      subst hnil
      simp at h
    exact udt_zip_loop_oob types names 0 SchemaObject.new hne (by simpa using h)

/-- Witness for C10: one name and two types zips totally; two names and one
type panics with an out-of-bounds index. -/
theorem udt_zip_positional_contract_witness :
    udt_schema_object ["a"] ["int", "text"] =
      some { SchemaObject.new with fields := [("a", "int", false)] }
    ∧ udt_schema_object ["a", "b"] ["int"] = none :=
  ⟨udt_zip_positional_contract.1 ["a"] ["int", "text"] (by decide),
    udt_zip_positional_contract.2 ["a", "b"] ["int"] (by decide)⟩

end Charybdis










